import Mathlib

/-!
Shallow embedding of the ArbiterOS governance core (policy engine, managed
execution record, flight data recorder) and proofs about it.

Python dictionaries are modelled as association lists, Python JSON-style
values as the inductive type PyVal, exceptions as the Except monad, and
wall-clock timestamps as explicitly passed strings.
-/

set_option maxRecDepth 4000

namespace ArbiterOS

/-- A Python value as it occurs in the governed state dictionaries: the
JSON-representable fragment (None, bool, numbers, strings, lists, dicts).
Numbers are modelled as rationals, covering ints and floats exactly. -/
inductive PyVal where
  | null : PyVal
  | bool (b : Bool) : PyVal
  | num (q : ℚ) : PyVal
  | str (s : String) : PyVal
  | arr (xs : List PyVal) : PyVal
  | obj (fields : List (String × PyVal)) : PyVal

/-- A Python dict with string keys. -/
abbrev StateDict := List (String × PyVal)

/-- Python truthiness of a value. -/
def pyTruthy : PyVal → Bool
  | .null => false
  | .bool b => b
  | .num q => q != 0
  | .str s => s != ""
  | .arr xs => !xs.isEmpty
  | .obj l => !l.isEmpty

/-- Python dict.get with a default, on a top-level state dict. -/
def dictGetD (s : StateDict) (k : String) (d : PyVal) : PyVal :=
  (List.lookup k s).getD d

/-- Python dict.get with a default, on an arbitrary value: raises
AttributeError when the receiver is not a dict. -/
def pyGetD (v : PyVal) (k : String) (d : PyVal) : Except String PyVal :=
  match v with
  | .obj l => pure ((List.lookup k l).getD d)
  | _ => Except.error "AttributeError: object has no attribute get"

/-- Python subscript v[-1]: last element of a list, last character of a
string; raises otherwise. -/
def pyIndexLast : PyVal → Except String PyVal
  | .arr xs =>
      match xs.getLast? with
      | some v => pure v
      | none => Except.error "IndexError: list index out of range"
  | .str s =>
      match s.data.getLast? with
      | some c => pure (.str (String.mk [c]))
      | none => Except.error "IndexError: string index out of range"
  | _ => Except.error "TypeError: object is not subscriptable"

/-- Numeric view of a value for comparisons: Python bools are ints. -/
def pyNumVal : PyVal → Option ℚ
  | .num q => some q
  | .bool b => some (if b then 1 else 0)
  | _ => none

/-- Python a > b for the numeric and string cases that occur in rule
conditions; other operand mixes raise TypeError. -/
def pyGt (a b : PyVal) : Except String Bool :=
  match pyNumVal a, pyNumVal b with
  | some x, some y => pure (decide (y < x))
  | _, _ =>
      match a, b with
      | .str s, .str t => pure (decide (t < s))
      | _, _ => Except.error "TypeError: unsupported operand types for comparison"

/-- Python a < b, derived as b > a. -/
def pyLt (a b : PyVal) : Except String Bool := pyGt b a

/-- Python str() of a value. Only the scalar renderings are ever consumed by
the rule evaluators modelled here; container rendering is abbreviated. -/
def pyStr : PyVal → String
  | .null => "None"
  | .bool b => if b then "True" else "False"
  | .num q => if q.den = 1 then toString q.num else toString q
  | .str s => s
  | .arr _ => "\x5b...\x5d"
  | .obj _ => "\x7b...\x7d"

/-- Python == between a value and a string literal: only an equal string
compares equal (no other Python value equals a str). -/
def pyEqStr (v : PyVal) (s : String) : Bool :=
  match v with
  | .str t => t == s
  | _ => false

/-- Substring test, as Python in on strings. -/
def strContains (hay needle : String) : Bool :=
  if needle = "" then true else (hay.splitOn needle).length > 1

/-- Python iteration over a value: lists yield elements, strings yield
one-character strings, dicts yield their keys; other values raise. -/
def pyIter : PyVal → Except String (List PyVal)
  | .arr xs => pure xs
  | .str s => pure (s.data.map (fun c => .str (String.mk [c])))
  | .obj l => pure (l.map (fun p => .str p.1))
  | _ => Except.error "TypeError: object is not iterable"

/-- Python str.lower(); raises AttributeError on non-strings. -/
def pyLower : PyVal → Except String String
  | .str s => pure s.toLower
  | _ => Except.error "AttributeError: object has no attribute lower"

/-- Types of policy rules (PolicyRuleType). -/
inductive PolicyRuleType where
  | semantic_safety
  | content_aware
  | resource_limit
  | conditional_resilience
  | custom
  deriving DecidableEq

/-- An individual policy rule (PolicyRule). -/
structure PolicyRule where
  rule_id : String
  rule_type : PolicyRuleType
  description : String
  condition : StateDict
  action : String
  action_params : Option PyVal
  severity : String
  enabled : Bool
  applies_to : List String
  priority : Int

/-- Configuration of the policy engine (PolicyConfig). -/
structure PolicyConfig where
  policy_id : String
  version : String
  description : String
  rules : List PolicyRule
  environment : String
  strict_mode : Bool
  allow_override : Bool
  max_tokens : Option Int
  max_execution_time : Option ℚ
  max_retries : Int
  require_verification : Bool
  verification_confidence_threshold : ℚ

/-- The bucket of the precompiled applies-index under one key: the enabled
rules stored under that key by compile_rule_caches, in insertion order.
Rules with empty applies_to go under the wildcard key, the others under
each element of their applies_to (once per occurrence). -/
def appliesKeyEntries (rules : List PolicyRule) (key : String) : List PolicyRule :=
  rules.foldl
    (fun acc r =>
      if !r.enabled then acc
      else if r.applies_to.isEmpty then
        (if key = "*" then acc ++ [r] else acc)
      else acc ++ (r.applies_to.filter (fun t => t = key)).map (fun _ => r))
    []

/-- The rules evaluate_rules iterates over for one instruction type: the
applies-index bucket for that type followed by the wildcard bucket. -/
def applicableRules (config : PolicyConfig) (instruction_type : String) : List PolicyRule :=
  appliesKeyEntries config.rules instruction_type ++ appliesKeyEntries config.rules "*"

/-- The precompiled transition matrix: a flow key maps to true exactly when
some enabled SEMANTIC_SAFETY rule lists it in condition.allowed_flows.
Dict.get with default false is modelled by returning that membership. -/
def transitionMatrix (config : PolicyConfig) (key : String) : Bool :=
  config.rules.any fun r =>
    r.enabled && r.rule_type == PolicyRuleType.semantic_safety &&
      (match List.lookup "allowed_flows" r.condition with
       | some (.arr xs) => xs.any (fun v => pyEqStr v key)
       | _ => false)

/-- Result details are a Python dict. -/
abbrev Details := StateDict

/-- A rule evaluator returns (passed, details) or raises. -/
abbrev Evaluator := PolicyRule → String → StateDict → Except String (Bool × Details)

/-- evaluate_semantic_safety: on a TOOL_CALL whose preceding recent
instruction is GENERATE, fail unless the transition matrix allows the flow
key GENERATE->TOOL_CALL. The rule argument itself is not consulted. -/
def evaluateSemanticSafety (tm : String → Bool) : Evaluator :=
  fun _rule instruction_type state => do
    if instruction_type = "TOOL_CALL" then
      let osmeta := dictGetD state "os_metadata" (.obj [])
      let recent ← pyGetD osmeta "recent_instructions" (.arr [])
      if pyTruthy recent then
        let last ← pyIndexLast recent
        if pyEqStr last "GENERATE" then
          if !tm "GENERATE->TOOL_CALL" then
            pure (false,
              [("violation", .str "Cognitive instruction followed by Execution without verification"),
               ("required_action", .str "Add VERIFY step between GENERATE and TOOL_CALL")])
          else
            pure (true, [("message", .str "Semantic safety check passed")])
        else
          pure (true, [("message", .str "Semantic safety check passed")])
      else
        pure (true, [("message", .str "Semantic safety check passed")])
    else
      pure (true, [("message", .str "Semantic safety check passed")])

/-- The keyword loop of evaluate_content_aware: first keyword whose
lower-cased form occurs in the lower-cased content, raising on a
non-string keyword. -/
def firstSensitiveKeyword (contentLower : String) : List PyVal → Except String (Option String)
  | [] => pure none
  | kw :: rest => do
      let k ← pyLower kw
      if strContains contentLower k then
        pure (some (pyStr kw))
      else
        firstSensitiveKeyword contentLower rest

/-- evaluate_content_aware: sensitive-keyword check first, then the
max_length check; the first violated condition fails the rule. -/
def evaluateContentAware : Evaluator :=
  fun rule _instruction_type state => do
    let condition := rule.condition
    let afterKeywords ←
      match List.lookup "sensitive_keywords" condition with
      | some kws => do
          let kwList ← pyIter kws
          let content := pyStr (dictGetD state "content" (.str ""))
          let hit ← firstSensitiveKeyword content.toLower kwList
          match hit with
          | some k =>
              pure (some (false,
                [("violation", .str ("Sensitive keyword detected: " ++ k)),
                 ("detected_keyword", .str k)]))
          | none => pure (Option.none (α := Bool × Details))
      | none => pure none
    match afterKeywords with
    | some res => pure res
    | none =>
        match List.lookup "max_length" condition with
        | some maxLen => do
            let content := pyStr (dictGetD state "content" (.str ""))
            let exceeded ← pyGt (.num content.length) maxLen
            if exceeded then
              pure (false,
                [("violation", .str ("Content exceeds maximum length: " ++
                    toString content.length ++ " > " ++ pyStr maxLen)),
                 ("current_length", .num content.length),
                 ("max_length", maxLen)])
            else
              pure (true, [("message", .str "Content-aware check passed")])
        | none => pure (true, [("message", .str "Content-aware check passed")])

/-- The value compared against max_tokens in evaluate_resource_limit:
the Python expression
state.get("total_tokens", 0) or state.get("os_metadata", dict()).get("total_tokens", 0),
whose or falls through to the protected copy whenever the user-visible
value is falsy, not only when it is absent. -/
def resourceTokensValue (state : StateDict) : Except String PyVal := do
  let a := dictGetD state "total_tokens" (.num 0)
  if pyTruthy a then
    pure a
  else
    pyGetD (dictGetD state "os_metadata" (.obj [])) "total_tokens" (.num 0)

/-- The value compared against max_execution_time in
evaluate_resource_limit, with the same falsy fall-through. -/
def resourceTimeValue (state : StateDict) : Except String PyVal := do
  let a := dictGetD state "execution_time" (.num 0)
  if pyTruthy a then
    pure a
  else
    pyGetD (dictGetD state "os_metadata" (.obj [])) "execution_time" (.num 0)

/-- evaluate_resource_limit: token ceiling first, then the time ceiling. -/
def evaluateResourceLimit : Evaluator :=
  fun rule _instruction_type state => do
    let condition := rule.condition
    let afterTokens ←
      match List.lookup "max_tokens" condition with
      | some maxTokens => do
          let current ← resourceTokensValue state
          let exceeded ← pyGt current maxTokens
          if exceeded then
            pure (some (false,
              [("violation", .str ("Token limit exceeded: " ++ pyStr current ++
                  " > " ++ pyStr maxTokens)),
               ("current_tokens", current),
               ("max_tokens", maxTokens)]))
          else
            pure (Option.none (α := Bool × Details))
      | none => pure none
    match afterTokens with
    | some res => pure res
    | none =>
        match List.lookup "max_execution_time" condition with
        | some maxTime => do
            let current ← resourceTimeValue state
            let exceeded ← pyGt current maxTime
            if exceeded then
              pure (false,
                [("violation", .str ("Execution time exceeded: " ++ pyStr current ++
                    "s > " ++ pyStr maxTime ++ "s")),
                 ("current_time", current),
                 ("max_time", maxTime)])
            else
              pure (true, [("message", .str "Resource limit check passed")])
        | none => pure (true, [("message", .str "Resource limit check passed")])

/-- evaluate_conditional_resilience: when a prior step marked verify_failed
truthy, compare the recorded confidence against the configured threshold
(default 0.8). -/
def evaluateConditionalResilience : Evaluator :=
  fun rule _instruction_type state => do
    match List.lookup "verify_failed" state with
    | some vf =>
        if pyTruthy vf then do
          let confidence := dictGetD state "verification_confidence" (.num 0)
          let threshold := (List.lookup "confidence_threshold" rule.condition).getD (.num (4 / 5))
          let low ← pyLt confidence threshold
          if low then
            pure (false,
              [("violation", .str ("Verification confidence too low: " ++
                  pyStr confidence ++ " < " ++ pyStr threshold)),
               ("confidence", confidence),
               ("threshold", threshold),
               ("required_action", .str "Trigger FALLBACK")])
          else
            pure (true, [("message", .str "Conditional resilience check passed")])
        else
          pure (true, [("message", .str "Conditional resilience check passed")])
    | none => pure (true, [("message", .str "Conditional resilience check passed")])

/-- evaluate_custom: the documented always-pass extension point. -/
def evaluateCustom : Evaluator :=
  fun _rule _instruction_type _state =>
    pure (true, [("message", .str "Custom rule evaluation not implemented")])

/-- The rule-evaluator dispatch table registered by
register_default_evaluators, as held by one engine instance. -/
def defaultEvaluators (config : PolicyConfig) : PolicyRuleType → Option Evaluator
  | .semantic_safety => some (evaluateSemanticSafety (transitionMatrix config))
  | .content_aware => some evaluateContentAware
  | .resource_limit => some evaluateResourceLimit
  | .conditional_resilience => some evaluateConditionalResilience
  | .custom => some evaluateCustom

/-- One rule evaluation result dict. Keys that a branch leaves out or sets
to Python None are modelled as none; every result carries rule_id, passed
and severity. -/
structure RuleResult where
  rule_id : String
  rule_type : Option PolicyRuleType
  passed : Bool
  details : Option Details
  severity : String
  action : Option String
  action_params : Option PyVal
  error : Option String

/-- evaluate_rule: dispatch on the rule type through the evaluator table;
a missing evaluator or a raising evaluator yields a failed result with
severity error; on success the configured action and parameters are
attached only when the rule failed. -/
def evaluateRule (evs : PolicyRuleType → Option Evaluator) (rule : PolicyRule)
    (instruction_type : String) (state : StateDict) : RuleResult :=
  match evs rule.rule_type with
  | none =>
      { rule_id := rule.rule_id, rule_type := none, passed := false,
        details := none, severity := "error", action := none,
        action_params := none,
        error := some "No evaluator for rule type" }
  | some ev =>
      match ev rule instruction_type state with
      | .ok (passed, details) =>
          { rule_id := rule.rule_id, rule_type := some rule.rule_type,
            passed := passed, details := some details,
            severity := rule.severity,
            action := if passed then none else some rule.action,
            action_params := if passed then none else rule.action_params,
            error := none }
      | .error e =>
          { rule_id := rule.rule_id, rule_type := none, passed := false,
            details := none, severity := "error", action := none,
            action_params := none, error := some e }

/-- evaluate_rules: evaluate every applicable rule in order; the per-rule
exception handling in evaluate_rule keeps the loop total, so every
applicable rule contributes exactly one result. -/
def evaluateRules (evs : PolicyRuleType → Option Evaluator) (config : PolicyConfig)
    (instruction_type : String) (state : StateDict) : List RuleResult :=
  (applicableRules config instruction_type).map
    (fun rule => evaluateRule evs rule instruction_type state)

/-- should_allow_execution: critical failures block immediately; in strict
mode any failure blocks; the full result list is always returned. -/
def shouldAllowExecution (evs : PolicyRuleType → Option Evaluator) (config : PolicyConfig)
    (instruction_type : String) (state : StateDict) : Bool × List RuleResult :=
  let results := evaluateRules evs config instruction_type state
  let critical_failures := results.filter
    (fun r => !r.passed && r.severity == "critical")
  if !critical_failures.isEmpty then
    (false, results)
  else if config.strict_mode then
    let failures := results.filter (fun r => !r.passed)
    if !failures.isEmpty then (false, results) else (true, results)
  else
    (true, results)

/-- determine_violation_action of the Arbiter: critical failures win, then
failures whose configured action is FALLBACK, then LOG. -/
def determineViolationAction (rule_results : List RuleResult) : String :=
  let critical_violations := rule_results.filter
    (fun r => !r.passed && r.severity == "critical")
  if !critical_violations.isEmpty then
    "INTERRUPT"
  else
    let fallback_violations := rule_results.filter
      (fun r => !r.passed && r.action == some "FALLBACK")
    if !fallback_violations.isEmpty then
      "FALLBACK"
    else
      "LOG"

/-- Protected governance metadata (StateMetadata). Wall-clock datetimes are
carried in their serialized string form; floats as rationals. -/
structure StateMetadata where
  execution_id : String
  start_time : String
  last_updated : String
  current_instruction : Option String
  instruction_history : List String
  recent_instructions : List String
  total_tokens : Int
  execution_time : ℚ
  retry_count : Int
  policy_violations : List StateDict
  verification_status : Option StateDict
  interrupt_reason : Option String
  errors : List StateDict
  fallback_triggered : Bool
  latency_metrics : List (String × ℚ)
  cost_metrics : StateDict

/-- The managed execution record (ManagedState). -/
structure ManagedState where
  user_state : StateDict
  os_metadata : StateMetadata
  system_state : StateDict

/-- A freshly constructed ManagedState: empty payloads and a default
StateMetadata with the generated execution id and the creation time. -/
def mkFreshState (eid now : String) : ManagedState :=
  { user_state := [],
    os_metadata :=
      { execution_id := eid, start_time := now, last_updated := now,
        current_instruction := none, instruction_history := [],
        recent_instructions := [], total_tokens := 0, execution_time := 0,
        retry_count := 0, policy_violations := [],
        verification_status := none, interrupt_reason := none,
        errors := [], fallback_triggered := false,
        latency_metrics := [], cost_metrics := [] },
    system_state := [] }

/-- add_instruction_to_history: append to the unbounded history and to the
recent ring, then pop the oldest recent entry when more than 5 remain. -/
def addInstructionToHistory (s : ManagedState) (instruction_id : String) : ManagedState :=
  let hist := s.os_metadata.instruction_history ++ [instruction_id]
  let recent0 := s.os_metadata.recent_instructions ++ [instruction_id]
  let recent := if recent0.length > 5 then recent0.tail else recent0
  { s with os_metadata :=
      { s.os_metadata with
          instruction_history := hist, recent_instructions := recent } }

/-- set_current_instruction: record the pointer, then push onto history. -/
def setCurrentInstruction (s : ManagedState) (instruction_id : String) : ManagedState :=
  addInstructionToHistory
    { s with os_metadata :=
        { s.os_metadata with current_instruction := some instruction_id } }
    instruction_id

/-- trigger_fallback: set the sticky flag and stamp the interrupt reason
with the FALLBACK prefix. -/
def triggerFallback (s : ManagedState) (reason now : String) : ManagedState :=
  { s with os_metadata :=
      { s.os_metadata with
          fallback_triggered := true,
          interrupt_reason := some ("FALLBACK: " ++ reason),
          last_updated := now } }

/-- trigger_interrupt: stamp the interrupt reason. -/
def triggerInterrupt (s : ManagedState) (reason now : String) : ManagedState :=
  { s with os_metadata :=
      { s.os_metadata with
          interrupt_reason := some reason, last_updated := now } }

/-- is_healthy: no recorded errors, no fallback, no interrupt reason. -/
def isHealthy (s : ManagedState) : Bool :=
  s.os_metadata.errors.isEmpty &&
  !s.os_metadata.fallback_triggered &&
  s.os_metadata.interrupt_reason.isNone

/-- A nullable string rendered into the serialized dict. -/
def optStrVal : Option String → PyVal
  | none => .null
  | some s => .str s

/-- The field list of model_dump of StateMetadata: every declared field
under its name, with datetimes in their string form (json.dumps
default=str). -/
def metaDumpFields (m : StateMetadata) : StateDict :=
  [("execution_id", .str m.execution_id),
     ("start_time", .str m.start_time),
     ("last_updated", .str m.last_updated),
     ("current_instruction", optStrVal m.current_instruction),
     ("instruction_history", .arr (m.instruction_history.map .str)),
     ("recent_instructions", .arr (m.recent_instructions.map .str)),
     ("total_tokens", .num m.total_tokens),
     ("execution_time", .num m.execution_time),
     ("retry_count", .num m.retry_count),
     ("policy_violations", .arr (m.policy_violations.map .obj)),
     ("verification_status",
        match m.verification_status with
        | none => .null
        | some d => .obj d),
     ("interrupt_reason", optStrVal m.interrupt_reason),
     ("errors", .arr (m.errors.map .obj)),
     ("fallback_triggered", .bool m.fallback_triggered),
     ("latency_metrics", .obj (m.latency_metrics.map (fun p => (p.1, .num p.2)))),
     ("cost_metrics", .obj m.cost_metrics)]

/-- model_dump of StateMetadata as a dict value. -/
def metaDump (m : StateMetadata) : PyVal := .obj (metaDumpFields m)

/-- to_dict: the three-part flat structural form of the record. -/
def toDict (s : ManagedState) : PyVal :=
  .obj
    [("user_state", .obj s.user_state),
     ("os_metadata", metaDump s.os_metadata),
     ("system_state", .obj s.system_state)]

/-- Pydantic validation of a str field. -/
def parseStr : PyVal → Option String
  | .str s => some s
  | _ => none

/-- Pydantic validation of an Optional str field. -/
def parseOptStr : PyVal → Option (Option String)
  | .null => some none
  | .str s => some (some s)
  | _ => none

/-- Elementwise validation of a list value. -/
def parseListWith {α : Type} (f : PyVal → Option α) : List PyVal → Option (List α)
  | [] => some []
  | v :: rest => do
      let a ← f v
      let tail ← parseListWith f rest
      pure (a :: tail)

/-- Valuewise validation of a dict value. -/
def parsePairsWith {α : Type} (f : PyVal → Option α) :
    List (String × PyVal) → Option (List (String × α))
  | [] => some []
  | (k, v) :: rest => do
      let a ← f v
      let tail ← parsePairsWith f rest
      pure ((k, a) :: tail)

/-- Pydantic validation of a List str field. -/
def parseStrList : PyVal → Option (List String)
  | .arr xs => parseListWith parseStr xs
  | _ => none

/-- Pydantic validation of an int field. -/
def parseInt : PyVal → Option Int
  | .num q => if q.den = 1 then some q.num else none
  | _ => none

/-- Pydantic validation of a float field. -/
def parseRat : PyVal → Option ℚ
  | .num q => some q
  | _ => none

/-- Pydantic validation of a Dict field. -/
def parseDict : PyVal → Option StateDict
  | .obj l => some l
  | _ => none

/-- Pydantic validation of an Optional Dict field. -/
def parseOptDict : PyVal → Option (Option StateDict)
  | .null => some none
  | .obj l => some (some l)
  | _ => none

/-- Pydantic validation of a List Dict field. -/
def parseDictList : PyVal → Option (List StateDict)
  | .arr xs => parseListWith parseDict xs
  | _ => none

/-- Pydantic validation of a bool field. -/
def parseBool : PyVal → Option Bool
  | .bool b => some b
  | _ => none

/-- Pydantic validation of a Dict str float field. -/
def parseRatMap : PyVal → Option (List (String × ℚ))
  | .obj l => parsePairsWith parseRat l
  | _ => none

/-- Validation of the identity and timestamp fields of StateMetadata.
These are the fields whose pydantic defaults read the wall clock or are
required outright, so they must be present in the dict; serialized input
always carries every field. -/
def metaParseTimes (fields : StateDict) : Option (String × String × String) := do
  let execution_id ← parseStr ((List.lookup "execution_id" fields).getD .null)
  let start_time ← parseStr ((List.lookup "start_time" fields).getD .null)
  let last_updated ← parseStr ((List.lookup "last_updated" fields).getD .null)
  pure (execution_id, start_time, last_updated)

/-- Validation of the instruction-tracking fields, enforcing the declared
max_length of 5 on recent_instructions. -/
def metaParseInstr (fields : StateDict) :
    Option (Option String × List String × List String) := do
  let current_instruction ←
    parseOptStr ((List.lookup "current_instruction" fields).getD .null)
  let instruction_history ←
    parseStrList ((List.lookup "instruction_history" fields).getD (.arr []))
  let recent_instructions ←
    parseStrList ((List.lookup "recent_instructions" fields).getD (.arr []))
  if recent_instructions.length > 5 then none
  else pure (current_instruction, instruction_history, recent_instructions)

/-- Validation of the resource-counter fields. -/
def metaParseCounters (fields : StateDict) : Option (Int × ℚ × Int) := do
  let total_tokens ← parseInt ((List.lookup "total_tokens" fields).getD (.num 0))
  let execution_time ← parseRat ((List.lookup "execution_time" fields).getD (.num 0))
  let retry_count ← parseInt ((List.lookup "retry_count" fields).getD (.num 0))
  pure (total_tokens, execution_time, retry_count)

/-- Validation of the governance-state fields. -/
def metaParseGov (fields : StateDict) :
    Option (List StateDict × Option StateDict × Option String) := do
  let policy_violations ←
    parseDictList ((List.lookup "policy_violations" fields).getD (.arr []))
  let verification_status ←
    parseOptDict ((List.lookup "verification_status" fields).getD .null)
  let interrupt_reason ←
    parseOptStr ((List.lookup "interrupt_reason" fields).getD .null)
  pure (policy_violations, verification_status, interrupt_reason)

/-- Validation of the error-tracking and metric fields. -/
def metaParseErrsMetrics (fields : StateDict) :
    Option (List StateDict × Bool × List (String × ℚ) × StateDict) := do
  let errors ← parseDictList ((List.lookup "errors" fields).getD (.arr []))
  let fallback_triggered ←
    parseBool ((List.lookup "fallback_triggered" fields).getD (.bool false))
  let latency_metrics ←
    parseRatMap ((List.lookup "latency_metrics" fields).getD (.obj []))
  let cost_metrics ← parseDict ((List.lookup "cost_metrics" fields).getD (.obj []))
  pure (errors, fallback_triggered, latency_metrics, cost_metrics)

/-- Validating construction of StateMetadata from a field dict, as
pydantic performs it inside from_dict: each declared field is validated
against its annotation, with deterministic defaults for absent keys. -/
def metaParse (v : PyVal) : Option StateMetadata := do
  let fields ← parseDict v
  let (execution_id, start_time, last_updated) ← metaParseTimes fields
  let (current_instruction, instruction_history, recent_instructions) ←
    metaParseInstr fields
  let (total_tokens, execution_time, retry_count) ← metaParseCounters fields
  let (policy_violations, verification_status, interrupt_reason) ←
    metaParseGov fields
  let (errors, fallback_triggered, latency_metrics, cost_metrics) ←
    metaParseErrsMetrics fields
  pure
    { execution_id := execution_id, start_time := start_time,
      last_updated := last_updated,
      current_instruction := current_instruction,
      instruction_history := instruction_history,
      recent_instructions := recent_instructions,
      total_tokens := total_tokens, execution_time := execution_time,
      retry_count := retry_count, policy_violations := policy_violations,
      verification_status := verification_status,
      interrupt_reason := interrupt_reason, errors := errors,
      fallback_triggered := fallback_triggered,
      latency_metrics := latency_metrics, cost_metrics := cost_metrics }

/-- from_dict: rebuild the record, validating os_metadata through
StateMetadata. A dict without os_metadata would construct fresh metadata
with a randomly generated execution id; that nondeterministic path cannot
arise from serialized output and is outside this deterministic model. -/
def fromDict (v : PyVal) : Option ManagedState := do
  let fields ← parseDict v
  let meta ← metaParse (← List.lookup "os_metadata" fields)
  let user_state ← parseDict ((List.lookup "user_state" fields).getD (.obj []))
  let system_state ← parseDict ((List.lookup "system_state" fields).getD (.obj []))
  pure { user_state := user_state, os_metadata := meta, system_state := system_state }

/-- serialize: to_dict rendered to JSON text by the standard json library.
Since dumps followed by loads is lossless on these JSON trees, the text
stage is modelled as the identity and serialize returns the tree. -/
def serialize (s : ManagedState) : PyVal := toDict s

/-- deserialize: parse the JSON text (modelled as the tree) via from_dict. -/
def deserialize (v : PyVal) : Option ManagedState := fromDict v

/-- One flight-recorder trace event (TraceEvent). -/
structure TraceEvent where
  event_type : String
  timestamp : String
  data : StateDict
  instruction_id : Option String
  execution_id : Option String

/-- The flight data recorder: its append-only in-process trace store. -/
structure FlightDataRecorder where
  traces : List TraceEvent

/-- record_event: append one event to the store. -/
def recordEvent (rec : FlightDataRecorder) (event_type : String) (data : StateDict)
    (instruction_id execution_id : Option String) (now : String) : FlightDataRecorder :=
  { traces := rec.traces ++
      [{ event_type := event_type, timestamp := now, data := data,
         instruction_id := instruction_id, execution_id := execution_id }] }

/-- record_instruction_start: tagged with both instruction and execution id. -/
def recordInstructionStart (rec : FlightDataRecorder)
    (instruction_id instruction_type execution_id now : String) : FlightDataRecorder :=
  recordEvent rec "instruction_start"
    [("instruction_id", .str instruction_id),
     ("instruction_type", .str instruction_type),
     ("status", .str "started")]
    (some instruction_id) (some execution_id) now

/-- record_instruction_end: the method takes no execution id and passes
none to record_event, so the event carries execution_id none. -/
def recordInstructionEnd (rec : FlightDataRecorder) (instruction_id : String)
    (success : Bool) (execution_time : ℚ) (tokens_used : Option Int)
    (error : Option String) (now : String) : FlightDataRecorder :=
  let data :=
    [("instruction_id", .str instruction_id),
     ("status", .str (if success then "completed" else "failed")),
     ("execution_time", .num execution_time)]
  let data := data ++
    (match tokens_used with
     | some t => [("tokens_used", .num t)]
     | none => [])
  let data := data ++
    (match error with
     | some e => if e ≠ "" then [("error", .str e)] else []
     | none => [])
  recordEvent rec "instruction_end" data (some instruction_id) none now

/-- get_execution_trace: the events whose execution_id equals the given id. -/
def getExecutionTrace (rec : FlightDataRecorder) (execution_id : String) : List TraceEvent :=
  rec.traces.filter (fun e => e.execution_id == some execution_id)

/-- One step of the event_types tally in get_trace_summary: a dict update
counts-by-key, incrementing in place or appending a fresh key. -/
def bumpCount : List (String × Nat) → String → List (String × Nat)
  | [], ty => [(ty, 1)]
  | (k, n) :: rest, ty =>
      if k = ty then (k, n + 1) :: rest else (k, n) :: bumpCount rest ty

/-- The event_types component of get_trace_summary: the per-type tally of
the events retrieved for the given execution id. -/
def traceSummaryEventTypes (rec : FlightDataRecorder) (execution_id : String) :
    List (String × Nat) :=
  (getExecutionTrace rec execution_id).foldl
    (fun acc e => bumpCount acc e.event_type) []

/-- Reading a count out of the event_types dict: absent type means zero. -/
def eventTypeCount (rec : FlightDataRecorder) (execution_id event_type : String) : Nat :=
  (List.lookup event_type (traceSummaryEventTypes rec execution_id)).getD 0

/-! ## Theorems -/

/-- A filtered list is nonempty exactly when some element satisfies the
predicate. -/
theorem filter_not_isEmpty_iff {α : Type} (l : List α) (p : α → Bool) :
    ((!(l.filter p).isEmpty) = true) ↔ ∃ a ∈ l, p a = true := by
  simp [List.isEmpty_iff, List.filter_eq_nil_iff]

/-- A filtered list is empty exactly when no element satisfies the
predicate. -/
theorem filter_isEmpty_iff {α : Type} (l : List α) (p : α → Bool) :
    ((!(l.filter p).isEmpty) = false) ↔ ∀ a ∈ l, p a = false := by
  simp [List.isEmpty_iff, List.filter_eq_nil_iff]

/-- should_allow_execution always returns the full result list, whatever
the verdict. -/
theorem shouldAllowExecution_snd (evs : PolicyRuleType → Option Evaluator)
    (config : PolicyConfig) (instruction_type : String) (state : StateDict) :
    (shouldAllowExecution evs config instruction_type state).2 =
      evaluateRules evs config instruction_type state := by
  simp only [shouldAllowExecution]
  repeat' split
  all_goals rfl

/-- should_allow_execution blocks exactly when a critical failure exists
or strict mode sees any failure. -/
theorem shouldAllowExecution_fst (evs : PolicyRuleType → Option Evaluator)
    (config : PolicyConfig) (instruction_type : String) (state : StateDict) :
    ((shouldAllowExecution evs config instruction_type state).1 = false ↔
      ((!((evaluateRules evs config instruction_type state).filter
          (fun r => !r.passed && r.severity == "critical")).isEmpty) = true ∨
       (config.strict_mode = true ∧
        (!((evaluateRules evs config instruction_type state).filter
          (fun r => !r.passed)).isEmpty) = true))) := by
  simp only [shouldAllowExecution]
  by_cases hcrit : (!((evaluateRules evs config instruction_type state).filter
      (fun r => !r.passed && r.severity == "critical")).isEmpty) = true
  · rw [if_pos hcrit]
    simp [hcrit]
  · rw [if_neg hcrit]
    by_cases hstrict : config.strict_mode = true
    · rw [if_pos hstrict]
      by_cases hfail : (!((evaluateRules evs config instruction_type state).filter
          (fun r => !r.passed)).isEmpty) = true
      · rw [if_pos hfail]
        simp [hcrit, hstrict, hfail]
      · rw [if_neg hfail]
        simp [hcrit, hstrict, hfail]
    · rw [if_neg hstrict]
      simp [hcrit, hstrict]

/-- C1: with strict_mode on, should_allow_execution returns allowed false
exactly when at least one applicable rule result is a failure. -/
theorem strict_mode_blocks_iff_some_failure (config : PolicyConfig)
    (instruction_type : String) (state : StateDict)
    (hstrict : config.strict_mode = true) :
    (shouldAllowExecution (defaultEvaluators config) config instruction_type state).1 = false ↔
      ∃ r ∈ (shouldAllowExecution (defaultEvaluators config) config instruction_type state).2,
        r.passed = false := by
  rw [shouldAllowExecution_snd, shouldAllowExecution_fst]
  constructor
  · rintro (hcrit | ⟨_, hfails⟩)
    · rw [filter_not_isEmpty_iff] at hcrit
      obtain ⟨r, hr, hp⟩ := hcrit
      simp only [Bool.and_eq_true, Bool.not_eq_true'] at hp
      exact ⟨r, hr, hp.1⟩
    · rw [filter_not_isEmpty_iff] at hfails
      obtain ⟨r, hr, hp⟩ := hfails
      exact ⟨r, hr, by simpa using hp⟩
  · rintro ⟨r, hr, hp⟩
    refine Or.inr ⟨hstrict, ?_⟩
    rw [filter_not_isEmpty_iff]
    exact ⟨r, hr, by simp [hp]⟩

/-- C1 witness: a concrete strict-mode policy with one CONTENT_AWARE rule
whose length ceiling is exceeded, so execution is blocked and a failing
result exists. -/
def lengthRule : PolicyRule :=
  { rule_id := "len", rule_type := .content_aware,
    description := "bound content length",
    condition := [("max_length", .num 3)], action := "LOG",
    action_params := none, severity := "warning", enabled := true,
    applies_to := ["GENERATE"], priority := 0 }

/-- A strict-mode configuration holding just the length rule. -/
def strictConfig : PolicyConfig :=
  { policy_id := "p1", version := "1.0.0", description := "strict demo",
    rules := [lengthRule], environment := "standard", strict_mode := true,
    allow_override := false, max_tokens := none, max_execution_time := none,
    max_retries := 3, require_verification := true,
    verification_confidence_threshold := 4 / 5 }

/-- Witness for C1 at a concrete blocked input. -/
theorem strict_mode_blocks_iff_some_failure_witness :
    strictConfig.strict_mode = true ∧
    ((shouldAllowExecution (defaultEvaluators strictConfig) strictConfig "GENERATE"
        [("content", .str "abcdef")]).1 = false ↔
      ∃ r ∈ (shouldAllowExecution (defaultEvaluators strictConfig) strictConfig "GENERATE"
          [("content", .str "abcdef")]).2, r.passed = false) :=
  ⟨rfl, strict_mode_blocks_iff_some_failure strictConfig "GENERATE"
    [("content", .str "abcdef")] rfl⟩

/-- C2: for any result list, the derived violation action follows the
strict precedence critical-failure, then FALLBACK-action failure, then
LOG; in particular a critical failure beside a warning failure yields
INTERRUPT. -/
theorem violation_action_precedence (rule_results : List RuleResult)
    (_h : ∃ r ∈ rule_results, r.passed = false) :
    determineViolationAction rule_results =
      (if ∃ r ∈ rule_results, r.passed = false ∧ r.severity = "critical" then
        "INTERRUPT"
       else if ∃ r ∈ rule_results, r.passed = false ∧ r.action = some "FALLBACK" then
        "FALLBACK"
       else "LOG") := by
  unfold determineViolationAction
  by_cases hc : ∃ r ∈ rule_results, r.passed = false ∧ r.severity = "critical"
  · rw [if_pos hc]
    obtain ⟨r, hr, hp, hs⟩ := hc
    have : (!(rule_results.filter
        (fun r => !r.passed && r.severity == "critical")).isEmpty) = true := by
      rw [filter_not_isEmpty_iff]
      exact ⟨r, hr, by simp [hp, hs]⟩
    simp only [this, if_true]
  · rw [if_neg hc]
    have hcf : (!(rule_results.filter
        (fun r => !r.passed && r.severity == "critical")).isEmpty) = false := by
      rw [filter_isEmpty_iff]
      intro r hr
      by_contra hp
      simp only [Bool.not_eq_false, Bool.and_eq_true, Bool.not_eq_true',
        beq_iff_eq] at hp
      exact hc ⟨r, hr, hp⟩
    simp only [hcf, Bool.false_eq_true, if_false]
    by_cases hf : ∃ r ∈ rule_results, r.passed = false ∧ r.action = some "FALLBACK"
    · rw [if_pos hf]
      obtain ⟨r, hr, hp, ha⟩ := hf
      have : (!(rule_results.filter
          (fun r => !r.passed && r.action == some "FALLBACK")).isEmpty) = true := by
        rw [filter_not_isEmpty_iff]
        exact ⟨r, hr, by simp [hp, ha]⟩
      simp only [this, if_true]
    · rw [if_neg hf]
      have hff : (!(rule_results.filter
          (fun r => !r.passed && r.action == some "FALLBACK")).isEmpty) = false := by
        rw [filter_isEmpty_iff]
        intro r hr
        by_contra hp
        simp only [Bool.not_eq_false, Bool.and_eq_true, Bool.not_eq_true',
          beq_iff_eq] at hp
        exact hf ⟨r, hr, hp⟩
      simp only [hff, Bool.false_eq_true, if_false]

/-- A failing critical-severity result. -/
def criticalFailResult : RuleResult :=
  { rule_id := "rc", rule_type := some .custom, passed := false,
    details := some [], severity := "critical", action := some "INTERRUPT",
    action_params := none, error := none }

/-- A failing warning-severity result. -/
def warningFailResult : RuleResult :=
  { rule_id := "rw", rule_type := some .custom, passed := false,
    details := some [], severity := "warning", action := some "LOG",
    action_params := none, error := none }

/-- Witness for C2: a critical failure next to a warning failure derives
INTERRUPT. -/
theorem violation_action_precedence_witness :
    (∃ r ∈ [criticalFailResult, warningFailResult], r.passed = false) ∧
    determineViolationAction [criticalFailResult, warningFailResult] = "INTERRUPT" := by
  have hmem : criticalFailResult ∈ [criticalFailResult, warningFailResult] :=
    List.mem_cons_self _ _
  have hfail : ∃ r ∈ [criticalFailResult, warningFailResult], r.passed = false :=
    ⟨criticalFailResult, hmem, rfl⟩
  refine ⟨hfail, ?_⟩
  rw [violation_action_precedence _ hfail,
    if_pos ⟨criticalFailResult, hmem, rfl, rfl⟩]

/-- C10: trigger_fallback sets the sticky flag, stamps a non-null
FALLBACK-prefixed interrupt reason, and leaves the record unhealthy. -/
theorem trigger_fallback_marks_unhealthy (s : ManagedState) (reason now : String) :
    (triggerFallback s reason now).os_metadata.fallback_triggered = true ∧
    (triggerFallback s reason now).os_metadata.interrupt_reason =
      some ("FALLBACK: " ++ reason) ∧
    isHealthy (triggerFallback s reason now) = false := by
  refine ⟨rfl, rfl, ?_⟩
  simp [isHealthy, triggerFallback]

/-- The calls of C4: the two public mutators that touch the instruction
histories. -/
inductive HistOp where
  | set_current (instruction_id : String)
  | add_history (instruction_id : String)

/-- Dispatch one history mutator call. -/
def applyHistOp (s : ManagedState) : HistOp → ManagedState
  | .set_current iid => setCurrentInstruction s iid
  | .add_history iid => addInstructionToHistory s iid

/-- Run a sequence of history mutator calls. -/
def applyHistOps (s : ManagedState) (ops : List HistOp) : ManagedState :=
  ops.foldl applyHistOp s

/-- Appending the same element preserves the suffix relation. -/
theorem suffix_append_singleton {α : Type} {l h : List α} (hs : l <:+ h) (x : α) :
    l ++ [x] <:+ h ++ [x] := by
  obtain ⟨t, ht⟩ := hs
  exact ⟨t, by rw [← List.append_assoc, ht]⟩

/-- One add_instruction_to_history call preserves the ring-buffer bound
and the suffix relation between the two histories. -/
theorem addInstructionToHistory_inv (s : ManagedState) (iid : String)
    (hlen : s.os_metadata.recent_instructions.length ≤ 5)
    (hsuf : s.os_metadata.recent_instructions <:+ s.os_metadata.instruction_history) :
    (addInstructionToHistory s iid).os_metadata.recent_instructions.length ≤ 5 ∧
    (addInstructionToHistory s iid).os_metadata.recent_instructions <:+
      (addInstructionToHistory s iid).os_metadata.instruction_history := by
  simp only [addInstructionToHistory]
  by_cases hl : (s.os_metadata.recent_instructions ++ [iid]).length > 5
  · rw [if_pos hl]
    constructor
    · rcases hr : s.os_metadata.recent_instructions with _ | ⟨a, rest⟩
      · simp
      · simp only [hr, List.cons_append, List.tail_cons, List.length_append,
          List.length_singleton]
        rw [hr] at hlen
        simp only [List.length_cons] at hlen
        omega
    · have htail : (s.os_metadata.recent_instructions ++ [iid]).tail <:+
          s.os_metadata.recent_instructions.tail ++ [iid] := by
        rcases s.os_metadata.recent_instructions with _ | ⟨a, rest⟩
        · simp
        · simp
      exact htail.trans
        (suffix_append_singleton ((List.tail_suffix _).trans hsuf) iid)
  · rw [if_neg hl]
    exact ⟨by simp only [List.length_append, List.length_singleton] at hl ⊢; omega,
      suffix_append_singleton hsuf iid⟩

/-- set_current_instruction leaves the two histories exactly as one
add_instruction_to_history call does. -/
theorem setCurrentInstruction_inv (s : ManagedState) (iid : String)
    (hlen : s.os_metadata.recent_instructions.length ≤ 5)
    (hsuf : s.os_metadata.recent_instructions <:+ s.os_metadata.instruction_history) :
    (setCurrentInstruction s iid).os_metadata.recent_instructions.length ≤ 5 ∧
    (setCurrentInstruction s iid).os_metadata.recent_instructions <:+
      (setCurrentInstruction s iid).os_metadata.instruction_history :=
  addInstructionToHistory_inv _ iid hlen hsuf

/-- C4: starting from a fresh record, after any sequence of
set_current_instruction and add_instruction_to_history calls,
recent_instructions holds at most 5 entries and is a suffix of
instruction_history. Since every prefix of a call sequence is itself a
call sequence, this covers the state after each call. -/
theorem recent_instructions_bounded_suffix (eid t0 : String) (ops : List HistOp) :
    (applyHistOps (mkFreshState eid t0) ops).os_metadata.recent_instructions.length ≤ 5 ∧
    (applyHistOps (mkFreshState eid t0) ops).os_metadata.recent_instructions <:+
      (applyHistOps (mkFreshState eid t0) ops).os_metadata.instruction_history := by
  have key : ∀ (ops : List HistOp) (s : ManagedState),
      s.os_metadata.recent_instructions.length ≤ 5 →
      s.os_metadata.recent_instructions <:+ s.os_metadata.instruction_history →
      (applyHistOps s ops).os_metadata.recent_instructions.length ≤ 5 ∧
      (applyHistOps s ops).os_metadata.recent_instructions <:+
        (applyHistOps s ops).os_metadata.instruction_history := by
    intro ops
    induction ops with
    | nil => exact fun s h1 h2 => ⟨h1, h2⟩
    | cons op rest ih =>
      intro s h1 h2
      rw [applyHistOps, List.foldl_cons]
      cases op with
      | set_current iid =>
          obtain ⟨h1', h2'⟩ := setCurrentInstruction_inv s iid h1 h2
          exact ih (setCurrentInstruction s iid) h1' h2'
      | add_history iid =>
          obtain ⟨h1', h2'⟩ := addInstructionToHistory_inv s iid h1 h2
          exact ih (addInstructionToHistory s iid) h1' h2'
  exact key ops (mkFreshState eid t0) (by simp [mkFreshState]) (by simp [mkFreshState])

/-- The SEMANTIC_SAFETY rule of C3: only the three-step flow
GENERATE, VERIFY, TOOL_CALL is allowed. -/
def flowRule : PolicyRule :=
  { rule_id := "flow", rule_type := .semantic_safety,
    description := "require VERIFY between GENERATE and TOOL_CALL",
    condition := [("allowed_flows", .arr [.str "GENERATE->VERIFY->TOOL_CALL"])],
    action := "INTERRUPT", action_params := none, severity := "critical",
    enabled := true, applies_to := ["TOOL_CALL"], priority := 0 }

/-- A configuration holding just the flow rule. -/
def flowConfig : PolicyConfig :=
  { policy_id := "pflow", version := "1.0.0", description := "flow demo",
    rules := [flowRule], environment := "standard", strict_mode := true,
    allow_override := false, max_tokens := none, max_execution_time := none,
    max_retries := 3, require_verification := true,
    verification_confidence_threshold := 4 / 5 }

/-- A state snapshot whose protected metadata carries the given recent
instruction window. -/
def stateWithRecent (recent : List String) : StateDict :=
  [("os_metadata", .obj [("recent_instructions", .arr (recent.map .str))])]

/-- Evaluating semantic safety on a TOOL_CALL whose recent window ends in
GENERATE fails when the transition matrix lacks GENERATE->TOOL_CALL. -/
theorem evaluateSemanticSafety_lastGenerate (tm : String → Bool) (rule : PolicyRule)
    (l : List PyVal) (htm : tm "GENERATE->TOOL_CALL" = false) :
    evaluateSemanticSafety tm rule "TOOL_CALL"
      [("os_metadata", .obj [("recent_instructions", .arr (l ++ [.str "GENERATE"]))])] =
    Except.ok (false,
      [("violation", .str "Cognitive instruction followed by Execution without verification"),
       ("required_action", .str "Add VERIFY step between GENERATE and TOOL_CALL")]) := by
  simp [evaluateSemanticSafety, dictGetD, pyGetD, pyTruthy, pyIndexLast,
    List.getLast?_concat, pyEqStr, htm]
  rfl

/-- Evaluating semantic safety on a TOOL_CALL whose recent window ends in
VERIFY passes. -/
theorem evaluateSemanticSafety_lastVerify (tm : String → Bool) (rule : PolicyRule)
    (l : List PyVal) :
    evaluateSemanticSafety tm rule "TOOL_CALL"
      [("os_metadata", .obj [("recent_instructions", .arr (l ++ [.str "VERIFY"]))])] =
    Except.ok (true, [("message", .str "Semantic safety check passed")]) := by
  simp [evaluateSemanticSafety, dictGetD, pyGetD, pyTruthy, pyIndexLast,
    List.getLast?_concat, pyEqStr]
  rfl

/-- evaluate_rule on a semantic-safety rule, at a TOOL_CALL whose recent
window ends in GENERATE, with the flow not in the transition matrix:
a failing result carrying the rule's action. -/
theorem evaluateRule_semanticSafety_fail (config : PolicyConfig) (rule : PolicyRule)
    (l : List PyVal) (hrt : rule.rule_type = .semantic_safety)
    (htm : transitionMatrix config "GENERATE->TOOL_CALL" = false) :
    evaluateRule (defaultEvaluators config) rule "TOOL_CALL"
      [("os_metadata", .obj [("recent_instructions", .arr (l ++ [.str "GENERATE"]))])] =
      { rule_id := rule.rule_id, rule_type := some .semantic_safety, passed := false,
        details := some
          [("violation", .str "Cognitive instruction followed by Execution without verification"),
           ("required_action", .str "Add VERIFY step between GENERATE and TOOL_CALL")],
        severity := rule.severity, action := some rule.action,
        action_params := rule.action_params, error := none } := by
  unfold evaluateRule
  rw [hrt]
  simp only [defaultEvaluators]
  rw [evaluateSemanticSafety_lastGenerate (transitionMatrix config) rule l htm]
  simp [hrt]

/-- evaluate_rule on a semantic-safety rule, at a TOOL_CALL whose recent
window ends in VERIFY: a passing result. -/
theorem evaluateRule_semanticSafety_pass (config : PolicyConfig) (rule : PolicyRule)
    (l : List PyVal) (hrt : rule.rule_type = .semantic_safety) :
    evaluateRule (defaultEvaluators config) rule "TOOL_CALL"
      [("os_metadata", .obj [("recent_instructions", .arr (l ++ [.str "VERIFY"]))])] =
      { rule_id := rule.rule_id, rule_type := some .semantic_safety, passed := true,
        details := some [("message", .str "Semantic safety check passed")],
        severity := rule.severity, action := none,
        action_params := none, error := none } := by
  unfold evaluateRule
  rw [hrt]
  simp only [defaultEvaluators]
  rw [evaluateSemanticSafety_lastVerify (transitionMatrix config) rule l]
  simp [hrt]

/-- C3: under the flow rule, a TOOL_CALL evaluated right after a recent
window ending in GENERATE yields a failing result for that rule, and a
window ending in VERIFY (a VERIFY inserted between GENERATE and
TOOL_CALL) yields a passing one. -/
theorem semantic_safety_generate_tool_call (pre : List String) :
    ((evaluateRules (defaultEvaluators flowConfig) flowConfig "TOOL_CALL"
        (stateWithRecent (pre ++ ["GENERATE"]))).map (fun r => (r.rule_id, r.passed)) =
      [("flow", false)]) ∧
    ((evaluateRules (defaultEvaluators flowConfig) flowConfig "TOOL_CALL"
        (stateWithRecent (pre ++ ["GENERATE", "VERIFY"]))).map (fun r => (r.rule_id, r.passed)) =
      [("flow", true)]) := by
  have htm : transitionMatrix flowConfig "GENERATE->TOOL_CALL" = false := rfl
  constructor
  · have hst : stateWithRecent (pre ++ ["GENERATE"]) =
        [("os_metadata", .obj [("recent_instructions",
          .arr (pre.map .str ++ [.str "GENERATE"]))])] := by
      simp [stateWithRecent]
    rw [show evaluateRules (defaultEvaluators flowConfig) flowConfig "TOOL_CALL"
        (stateWithRecent (pre ++ ["GENERATE"])) =
        [evaluateRule (defaultEvaluators flowConfig) flowRule "TOOL_CALL"
          (stateWithRecent (pre ++ ["GENERATE"]))] from rfl]
    rw [hst, evaluateRule_semanticSafety_fail flowConfig flowRule (pre.map .str) rfl htm]
    rfl
  · have hst : stateWithRecent (pre ++ ["GENERATE", "VERIFY"]) =
        [("os_metadata", .obj [("recent_instructions",
          .arr ((pre.map .str ++ [.str "GENERATE"]) ++ [.str "VERIFY"]))])] := by
      simp [stateWithRecent]
    rw [show evaluateRules (defaultEvaluators flowConfig) flowConfig "TOOL_CALL"
        (stateWithRecent (pre ++ ["GENERATE", "VERIFY"])) =
        [evaluateRule (defaultEvaluators flowConfig) flowRule "TOOL_CALL"
          (stateWithRecent (pre ++ ["GENERATE", "VERIFY"]))] from rfl]
    rw [hst, evaluateRule_semanticSafety_pass flowConfig flowRule
      (pre.map PyVal.str ++ [PyVal.str "GENERATE"]) rfl]
    rfl

/-- The CONTENT_AWARE rule of C6: a 100-character ceiling on GENERATE. -/
def maxLen100Rule : PolicyRule :=
  { rule_id := "len100", rule_type := .content_aware,
    description := "bound generated content to 100 characters",
    condition := [("max_length", .num 100)], action := "LOG",
    action_params := none, severity := "warning", enabled := true,
    applies_to := ["GENERATE"], priority := 0 }

/-- A configuration holding just the 100-character rule. -/
def maxLen100Config : PolicyConfig :=
  { policy_id := "plen", version := "1.0.0", description := "length demo",
    rules := [maxLen100Rule], environment := "standard", strict_mode := true,
    allow_override := false, max_tokens := none, max_execution_time := none,
    max_retries := 3, require_verification := true,
    verification_confidence_threshold := 4 / 5 }

/-- C6: content of length 150 against the 100-character CONTENT_AWARE rule
on GENERATE produces a failing result whose details carry
current_length 150. -/
theorem content_aware_max_length_violation (content : String)
    (h : content.length = 150) :
    evaluateRules (defaultEvaluators maxLen100Config) maxLen100Config "GENERATE"
      [("content", .str content)] =
      [{ rule_id := "len100", rule_type := some .content_aware, passed := false,
         details := some
           [("violation", .str "Content exceeds maximum length: 150 > 100"),
            ("current_length", .num 150), ("max_length", .num 100)],
         severity := "warning", action := some "LOG", action_params := none,
         error := none }] := by
  rw [show evaluateRules (defaultEvaluators maxLen100Config) maxLen100Config "GENERATE"
      [("content", .str content)] =
      [evaluateRule (defaultEvaluators maxLen100Config) maxLen100Rule "GENERATE"
        [("content", .str content)]] from rfl]
  have hlen : (content.length : ℚ) = 150 := by rw [h]; norm_num
  have heval : evaluateContentAware maxLen100Rule "GENERATE" [("content", .str content)] =
      Except.ok (false,
        [("violation", .str "Content exceeds maximum length: 150 > 100"),
         ("current_length", .num 150), ("max_length", .num 100)]) := by
    simp [evaluateContentAware, maxLen100Rule, dictGetD, List.lookup, pyStr,
      pyGt, pyNumVal, hlen, h]
    rfl
  unfold evaluateRule
  rw [show maxLen100Rule.rule_type = .content_aware from rfl]
  simp only [defaultEvaluators]
  rw [heval]
  simp [maxLen100Rule]

/-- Witness for C6 at a concrete 150-character string. -/
theorem content_aware_max_length_violation_witness :
    (String.mk (List.replicate 150 'a')).length = 150 ∧
    evaluateRules (defaultEvaluators maxLen100Config) maxLen100Config "GENERATE"
      [("content", .str (String.mk (List.replicate 150 'a')))] =
      [{ rule_id := "len100", rule_type := some .content_aware, passed := false,
         details := some
           [("violation", .str "Content exceeds maximum length: 150 > 100"),
            ("current_length", .num 150), ("max_length", .num 100)],
         severity := "warning", action := some "LOG", action_params := none,
         error := none }] :=
  ⟨by rfl, content_aware_max_length_violation _ (by rfl)⟩

/-- evaluate_rule never changes the rule id of the result. -/
theorem evaluateRule_rule_id (evs : PolicyRuleType → Option Evaluator)
    (rule : PolicyRule) (instruction_type : String) (state : StateDict) :
    (evaluateRule evs rule instruction_type state).rule_id = rule.rule_id := by
  unfold evaluateRule
  rcases evs rule.rule_type with _ | ev
  · rfl
  · rcases hres : ev rule instruction_type state with e | p
    · simp [hres]
    · obtain ⟨passed, details⟩ := p
      simp [hres]

/-- C9: an applicable rule whose evaluator raises contributes a failed
result with severity error, the exception never propagates (evaluation is
total by construction), and every other applicable rule still contributes
its own result in order. -/
theorem rule_evaluator_error_isolated (evs : PolicyRuleType → Option Evaluator)
    (config : PolicyConfig) (instruction_type : String) (state : StateDict)
    (rule : PolicyRule) (ev : Evaluator) (e : String)
    (hmem : rule ∈ applicableRules config instruction_type)
    (hev : evs rule.rule_type = some ev)
    (herr : ev rule instruction_type state = .error e) :
    ({ rule_id := rule.rule_id, rule_type := none, passed := false,
       details := none, severity := "error", action := none,
       action_params := none, error := some e } : RuleResult) ∈
      evaluateRules evs config instruction_type state ∧
    (evaluateRules evs config instruction_type state).map (fun r => r.rule_id) =
      (applicableRules config instruction_type).map (fun r => r.rule_id) := by
  constructor
  · have hres : evaluateRule evs rule instruction_type state =
        { rule_id := rule.rule_id, rule_type := none, passed := false,
          details := none, severity := "error", action := none,
          action_params := none, error := some e } := by
      unfold evaluateRule
      simp [hev, herr]
    rw [← hres]
    exact List.mem_map_of_mem _ hmem
  · unfold evaluateRules
    rw [List.map_map]
    exact List.map_congr_left fun r _ => evaluateRule_rule_id evs r instruction_type state

/-- An evaluator that always raises, for the C9 witness. -/
def boomEvaluator : Evaluator := fun _rule _instruction_type _state => Except.error "boom"

/-- A CUSTOM rule applying to every instruction type, for the C9 witness. -/
def customRule : PolicyRule :=
  { rule_id := "c1", rule_type := .custom, description := "always applicable",
    condition := [], action := "LOG", action_params := none,
    severity := "info", enabled := true, applies_to := [], priority := 0 }

/-- A configuration holding just the custom rule. -/
def customConfig : PolicyConfig :=
  { policy_id := "pcustom", version := "1.0.0", description := "custom demo",
    rules := [customRule], environment := "standard", strict_mode := true,
    allow_override := false, max_tokens := none, max_execution_time := none,
    max_retries := 3, require_verification := true,
    verification_confidence_threshold := 4 / 5 }

/-- Witness for C9: a raising evaluator on the custom rule is isolated into
one failed result with severity error. -/
theorem rule_evaluator_error_isolated_witness :
    customRule ∈ applicableRules customConfig "GENERATE" ∧
    ({ rule_id := "c1", rule_type := none, passed := false,
       details := none, severity := "error", action := none,
       action_params := none, error := some "boom" } : RuleResult) ∈
      evaluateRules (fun _ => some boomEvaluator) customConfig "GENERATE" [] ∧
    (evaluateRules (fun _ => some boomEvaluator) customConfig "GENERATE" []).map
        (fun r => r.rule_id) =
      (applicableRules customConfig "GENERATE").map (fun r => r.rule_id) := by
  have hmem : customRule ∈ applicableRules customConfig "GENERATE" := by
    rw [show applicableRules customConfig "GENERATE" = [customRule] from rfl]
    exact List.mem_singleton_self _
  have h := rule_evaluator_error_isolated (fun _ => some boomEvaluator) customConfig
    "GENERATE" [] customRule boomEvaluator "boom" hmem rfl rfl
  exact ⟨hmem, h.1, h.2⟩

/-- C8 amended: the value a RESOURCE_LIMIT check compares against the
token ceiling is the user-visible total_tokens only when that copy is
present and truthy; when the copy is absent or falsy (for instance 0),
the protected os_metadata copy is consulted instead. Likewise for
execution_time. -/
theorem resource_values_fallback_on_falsy (state : StateDict) :
    (∀ v, List.lookup "total_tokens" state = some v → pyTruthy v = true →
        resourceTokensValue state = Except.ok v) ∧
    ((List.lookup "total_tokens" state = none ∨
        (∃ v, List.lookup "total_tokens" state = some v ∧ pyTruthy v = false)) →
      resourceTokensValue state =
        pyGetD (dictGetD state "os_metadata" (.obj [])) "total_tokens" (.num 0)) ∧
    (∀ v, List.lookup "execution_time" state = some v → pyTruthy v = true →
        resourceTimeValue state = Except.ok v) ∧
    ((List.lookup "execution_time" state = none ∨
        (∃ v, List.lookup "execution_time" state = some v ∧ pyTruthy v = false)) →
      resourceTimeValue state =
        pyGetD (dictGetD state "os_metadata" (.obj [])) "execution_time" (.num 0)) := by
  refine ⟨?_, ?_, ?_, ?_⟩
  · intro v hv htruthy
    simp [resourceTokensValue, dictGetD, hv, htruthy]
    rfl
  · rintro (hnone | ⟨v, hv, hfalsy⟩)
    · simp [resourceTokensValue, dictGetD, hnone, pyTruthy]
    · simp [resourceTokensValue, dictGetD, hv, hfalsy]
  · intro v hv htruthy
    simp [resourceTimeValue, dictGetD, hv, htruthy]
    rfl
  · rintro (hnone | ⟨v, hv, hfalsy⟩)
    · simp [resourceTimeValue, dictGetD, hnone, pyTruthy]
    · simp [resourceTimeValue, dictGetD, hv, hfalsy]

/-- The RESOURCE_LIMIT rule used to exhibit the falsy fall-through. -/
def tokenRule : PolicyRule :=
  { rule_id := "tok", rule_type := .resource_limit,
    description := "token ceiling", condition := [("max_tokens", .num 100)],
    action := "FALLBACK", action_params := none, severity := "warning",
    enabled := true, applies_to := [], priority := 0 }

/-- A snapshot whose user-visible total_tokens is present but 0 while the
protected copy reads 200. -/
def falsyTokenState : StateDict :=
  [("total_tokens", .num 0),
   ("os_metadata", .obj [("total_tokens", .num 200)])]

/-- C8 counterexample: with the user-visible total_tokens present (0, under
the 100 ceiling), the evaluator nevertheless compares the protected copy
200 and fails the rule — the protected copy is not used only on absence. -/
theorem resource_limit_ignores_present_zero :
    List.lookup "total_tokens" falsyTokenState = some (.num 0) ∧
    evaluateResourceLimit tokenRule "GENERATE" falsyTokenState =
      Except.ok (false,
        [("violation", .str "Token limit exceeded: 200 > 100"),
         ("current_tokens", .num 200), ("max_tokens", .num 100)]) :=
  ⟨rfl, rfl⟩

/-- Witness for the amended C8 at the same concrete snapshot: the falsy
user-visible copy routes the read to the protected copy. -/
theorem resource_values_fallback_on_falsy_witness :
    (List.lookup "total_tokens" falsyTokenState = some (.num 0) ∧
      pyTruthy (.num 0) = false) ∧
    resourceTokensValue falsyTokenState =
      pyGetD (dictGetD falsyTokenState "os_metadata" (.obj [])) "total_tokens" (.num 0) :=
  ⟨⟨rfl, rfl⟩,
    (resource_values_fallback_on_falsy falsyTokenState).2.1
      (Or.inr ⟨.num 0, rfl, rfl⟩)⟩

/-- Bumping one key of the tally raises exactly that key's count by one. -/
theorem lookup_bumpCount (acc : List (String × Nat)) (ty bumped : String) :
    (List.lookup ty (bumpCount acc bumped)).getD 0 =
      (List.lookup ty acc).getD 0 + (if ty = bumped then 1 else 0) := by
  induction acc with
  | nil =>
      by_cases h : ty = bumped
      · simp [bumpCount, List.lookup, h]
      · have hbeq : (ty == bumped) = false := beq_eq_false_iff_ne.mpr h
        simp [bumpCount, List.lookup, hbeq, h]
  | cons p rest ih =>
      obtain ⟨k, n⟩ := p
      by_cases hk : k = bumped
      · subst hk
        by_cases hty : ty = k
        · simp [bumpCount, List.lookup, hty]
        · have hbeq : (ty == k) = false := beq_eq_false_iff_ne.mpr hty
          simp [bumpCount, List.lookup, hbeq, hty]
      · by_cases hty : ty = k
        · have hbeq : (ty == k) = true := beq_iff_eq.mpr hty
          simp [bumpCount, List.lookup, hbeq, hk, hty]
        · have hbeq : (ty == k) = false := beq_eq_false_iff_ne.mpr hty
          simp [bumpCount, List.lookup, hbeq, hk, hty, ih]

/-- Folding the tally over a list of events counts each event type. -/
theorem lookup_foldl_bumpCount (events : List TraceEvent)
    (acc : List (String × Nat)) (ty : String) :
    (List.lookup ty (events.foldl (fun a e => bumpCount a e.event_type) acc)).getD 0 =
      (List.lookup ty acc).getD 0 +
        (events.filter (fun e => e.event_type == ty)).length := by
  induction events generalizing acc with
  | nil => simp
  | cons e rest ih =>
      rw [List.foldl_cons, ih, lookup_bumpCount]
      by_cases h : ty = e.event_type
      · simp [List.filter_cons, h, beq_iff_eq]
        omega
      · simp [List.filter_cons, h, beq_iff_eq, Ne.symm h]

/-- C7 amended: each per-type count of the trace summary equals the number
of recorded events carrying that execution id and event type; and
record_instruction_end passes no execution id to record_event, so the
instruction_end events it records carry execution_id none and are
therefore excluded from every execution's summary counts. -/
theorem trace_summary_counts_by_execution_id (rec : FlightDataRecorder)
    (execution_id event_type : String) (instruction_id : String) (success : Bool)
    (execution_time : ℚ) (tokens_used : Option Int) (error : Option String)
    (now : String) :
    eventTypeCount rec execution_id event_type =
      (rec.traces.filter (fun e =>
        e.event_type == event_type && e.execution_id == some execution_id)).length ∧
    ((recordInstructionEnd rec instruction_id success execution_time tokens_used
        error now).traces.getLast?).map (fun e => e.execution_id) = some none := by
  constructor
  · unfold eventTypeCount traceSummaryEventTypes getExecutionTrace
    rw [lookup_foldl_bumpCount, List.filter_filter]
    simp
  · obtain ⟨data, hdata⟩ :
        ∃ data, (recordInstructionEnd rec instruction_id success execution_time
            tokens_used error now).traces =
          rec.traces ++
            [{ event_type := "instruction_end", timestamp := now, data := data,
               instruction_id := some instruction_id, execution_id := none }] :=
      ⟨_, rfl⟩
    rw [hdata]
    simp [List.getLast?_concat]

/-- C7 counterexample: one instruction_start and one instruction_end are
recorded while execution e1 runs, yet the summary for e1 counts zero
instruction_end events even though one sits in the trace store. -/
theorem trace_summary_misses_instruction_end :
    eventTypeCount
      (recordInstructionEnd
        (recordInstructionStart { traces := [] } "i1" "GENERATE" "e1" "t0")
        "i1" true 1 (some 5) none "t1") "e1" "instruction_end" = 0 ∧
    ((recordInstructionEnd
        (recordInstructionStart { traces := [] } "i1" "GENERATE" "e1" "t0")
        "i1" true 1 (some 5) none "t1").traces.filter
      (fun e => e.event_type == "instruction_end")).length = 1 := by
  constructor
  · rfl
  · rfl

/-- Elementwise parsing inverts an elementwise dump. -/
theorem parseListWith_map {α : Type} (f : PyVal → Option α) (g : α → PyVal)
    (xs : List α) (h : ∀ a, f (g a) = some a) :
    parseListWith f (xs.map g) = some xs := by
  induction xs with
  | nil => rfl
  | cons x rest ih => simp [parseListWith, h, ih]

/-- Valuewise parsing inverts a valuewise dump. -/
theorem parsePairsWith_map {α : Type} (f : PyVal → Option α) (g : α → PyVal)
    (xs : List (String × α)) (h : ∀ a, f (g a) = some a) :
    parsePairsWith f (xs.map (fun p => (p.1, g p.2))) = some xs := by
  induction xs with
  | nil => rfl
  | cons x rest ih =>
      obtain ⟨k, v⟩ := x
      simp [parsePairsWith, h, ih]

/-- parseStrList inverts the dump of a string list. -/
theorem parseStrList_map (xs : List String) :
    parseStrList (.arr (xs.map PyVal.str)) = some xs := by
  simp [parseStrList, parseListWith_map parseStr PyVal.str xs (fun a => rfl)]

/-- parseDictList inverts the dump of a dict list. -/
theorem parseDictList_map (xs : List StateDict) :
    parseDictList (.arr (xs.map PyVal.obj)) = some xs := by
  simp [parseDictList, parseListWith_map parseDict PyVal.obj xs (fun a => rfl)]

/-- parseRatMap inverts the dump of a string-to-float map. -/
theorem parseRatMap_map (xs : List (String × ℚ)) :
    parseRatMap (.obj (xs.map (fun p => (p.1, PyVal.num p.2)))) = some xs := by
  simp [parseRatMap, parsePairsWith_map parseRat PyVal.num xs (fun a => rfl)]

/-- The identity and timestamp fields parse back from their dump. -/
theorem metaParseTimes_dump (m : StateMetadata) :
    metaParseTimes (metaDumpFields m) =
      some (m.execution_id, m.start_time, m.last_updated) := by
  simp [metaParseTimes, metaDumpFields, List.lookup, parseStr]

/-- The instruction-tracking fields parse back from their dump. -/
theorem metaParseInstr_dump (m : StateMetadata)
    (h5 : m.recent_instructions.length ≤ 5) :
    metaParseInstr (metaDumpFields m) =
      some (m.current_instruction, m.instruction_history, m.recent_instructions) := by
  have hn : ¬ (m.recent_instructions.length > 5) := by omega
  cases hci : m.current_instruction <;>
    simp [metaParseInstr, metaDumpFields, List.lookup, optStrVal, parseOptStr,
      parseStrList_map, hn, hci]

/-- The resource counters parse back from their dump. -/
theorem metaParseCounters_dump (m : StateMetadata) :
    metaParseCounters (metaDumpFields m) =
      some (m.total_tokens, m.execution_time, m.retry_count) := by
  simp [metaParseCounters, metaDumpFields, List.lookup, parseInt, parseRat]

/-- The governance-state fields parse back from their dump. -/
theorem metaParseGov_dump (m : StateMetadata) :
    metaParseGov (metaDumpFields m) =
      some (m.policy_violations, m.verification_status, m.interrupt_reason) := by
  cases hvs : m.verification_status <;> cases hir : m.interrupt_reason <;>
    simp [metaParseGov, metaDumpFields, List.lookup, optStrVal, parseOptStr,
      parseOptDict, parseDictList_map, hvs, hir]

/-- The error-tracking and metric fields parse back from their dump. -/
theorem metaParseErrsMetrics_dump (m : StateMetadata) :
    metaParseErrsMetrics (metaDumpFields m) =
      some (m.errors, m.fallback_triggered, m.latency_metrics, m.cost_metrics) := by
  simp [metaParseErrsMetrics, metaDumpFields, List.lookup, parseBool,
    parseDictList_map, parseRatMap_map, parseDict]

/-- Validating construction inverts model_dump on every declared field. -/
theorem metaParse_metaDump (m : StateMetadata)
    (h5 : m.recent_instructions.length ≤ 5) :
    metaParse (metaDump m) = some m := by
  simp [metaParse, metaDump, parseDict, metaParseTimes_dump,
    metaParseInstr_dump m h5, metaParseCounters_dump, metaParseGov_dump,
    metaParseErrsMetrics_dump]

/-- C5: deserialize inverts serialize field for field on every valid
record (one whose recent window respects its declared bound, as every
pydantic-validated record does). -/
theorem serialize_deserialize_round_trip (s : ManagedState)
    (h5 : s.os_metadata.recent_instructions.length ≤ 5) :
    deserialize (serialize s) = some s := by
  simp [deserialize, serialize, fromDict, toDict, parseDict, List.lookup,
    metaParse_metaDump s.os_metadata h5]

/-- Witness for C5 at a concrete fresh record. -/
theorem serialize_deserialize_round_trip_witness :
    (mkFreshState "e1" "t0").os_metadata.recent_instructions.length ≤ 5 ∧
    deserialize (serialize (mkFreshState "e1" "t0")) = some (mkFreshState "e1" "t0") :=
  ⟨by decide, serialize_deserialize_round_trip _ (by decide)⟩

end ArbiterOS
